import Mathlib

/-!
# Real-estate price prediction app: model lifecycle

A shallow embedding of `src/App.js` (the single React component `App`) and the properties
of its model lifecycle: load-or-train at startup, predict, clear.

* JavaScript numbers are modelled by `JSNum`: NaN, the infinities and the finite binary64
  values, with `/` and `*` computed exactly over `ℚ` and then rounded to nearest, ties to
  even (`JSNum.round64`).
* The React state of the component is the record `AppState`; every handler is a function
  from the state to the new state and the list of effects it performs, in program order.
* What the component imports (`brain.js`) and the JavaScript built-ins it calls
  (`parseFloat`, `JSON.stringify`, `JSON.parse`) are not part of the repository: they are
  the fields of the parameter `Library`.
-/

/-! ## JavaScript numbers -/

/-- A JavaScript number: NaN, an infinity, or a finite binary64 value given by its exact
rational value (the two zeros are not told apart). -/
inductive JSNum where
  | nan : JSNum
  | inf (neg : Bool) : JSNum
  | fin (q : ℚ) : JSNum
  deriving DecidableEq

namespace JSNum

/-- Exponent of the binade that holds `q`, not below the least normal exponent. -/
def binade (q : ℚ) : ℤ := max (Int.log 2 |q|) (-1022)

/-- Spacing of the binary64 numbers around `q` (53-bit significand). -/
def ulp (q : ℚ) : ℚ := (2 : ℚ) ^ (binade q - 52)

/-- Nearest integer, ties to the even one. -/
def roundHalfEven (x : ℚ) : ℤ :=
  if x - ⌊x⌋ < 1 / 2 then ⌊x⌋
  else if 1 / 2 < x - ⌊x⌋ then ⌊x⌋ + 1
  else if ⌊x⌋ % 2 = 0 then ⌊x⌋ else ⌊x⌋ + 1

/-- Round an exact result to binary64: round to nearest, ties to even, overflow to an
infinity. -/
def round64 (q : ℚ) : JSNum :=
  if (2 : ℚ) ^ (1024 : ℤ) ≤ |(roundHalfEven (q / ulp q) : ℚ) * ulp q| then inf (decide (q < 0))
  else fin ((roundHalfEven (q / ulp q) : ℚ) * ulp q)

/-- The JavaScript operator `/` on numbers. -/
def div : JSNum → JSNum → JSNum
  | nan, _ => nan
  | _, nan => nan
  | inf _, inf _ => nan
  | inf s, fin b => inf (s != decide (b < 0))
  | fin _, inf _ => fin 0
  | fin a, fin b =>
    if b = 0 then (if a = 0 then nan else inf (decide (a < 0))) else round64 (a / b)

/-- The JavaScript operator `*` on numbers. -/
def mul : JSNum → JSNum → JSNum
  | nan, _ => nan
  | _, nan => nan
  | inf s, inf t => inf (s != t)
  | inf s, fin b => if b = 0 then nan else inf (s != decide (b < 0))
  | fin a, inf t => if a = 0 then nan else inf (decide (a < 0) != t)
  | fin a, fin b => round64 (a * b)

/-- JavaScript truthiness of a number: every number but NaN and zero. -/
def truthy : JSNum → Bool
  | nan => false
  | inf _ => true
  | fin q => decide (q ≠ 0)

end JSNum

open JSNum

/-! ## Data -/

/-- The component state `formData`: the raw text of the five form fields. -/
structure FormData where
  area : String
  bedrooms : String
  bathrooms : String
  location : String
  age : String
  deriving DecidableEq

/-- One record of `/real_estate_data.json`; the fields stand for the keys `"Area (sq ft)"`,
`Bedrooms`, `Bathrooms`, `Location`, `"Age of Property (years)"` and `"Price (in $1000)"`. -/
structure PropertyRecord where
  area : JSNum
  bedrooms : JSNum
  bathrooms : JSNum
  location : JSNum
  age : JSNum
  price : JSNum
  deriving DecidableEq

/-- The input object given to the network. -/
structure NetInput where
  area : JSNum
  bedrooms : JSNum
  bathrooms : JSNum
  location : JSNum
  age : JSNum
  deriving DecidableEq

/-- One element of `formattedData`: an input and the target `output.price`. -/
structure TrainingSample where
  input : NetInput
  price : JSNum
  deriving DecidableEq

/-- The object `trainedNet.run` returns; its field `price` may be missing. -/
structure NetOutput where
  price : Option JSNum
  deriving DecidableEq

/-- One entry of `datasets` in the chart data. -/
structure BarDataset where
  label : String
  data : List JSNum
  backgroundColor : List String
  deriving DecidableEq

/-- The component state `chartData`. -/
structure ChartData where
  labels : List String
  datasets : List BarDataset
  deriving DecidableEq

/-- The functions the component calls and the repository does not define: `parseFloat`,
the `brain.js` network (`train` is `new NeuralNetwork(options)` followed by `net.train`,
with `seed` standing for the random initial weights; `fromJSON` is `new NeuralNetwork()`
followed by `net.fromJSON`), `JSON.stringify` and `JSON.parse` (`none` when it throws). -/
structure Library (Net Json : Type) where
  parseFloat : String → JSNum
  train : (hiddenLayers : List ℕ) → (iterations : ℕ) → (errorThresh : JSNum) → (seed : ℕ) →
    List TrainingSample → Net
  run : Net → NetInput → Option NetOutput
  toJSON : Net → Json
  fromJSON : Json → Net
  stringify : Json → String
  parse : String → Option Json

/-- The browser storage `localStorage`: a value or nothing under each key. -/
abbrev Storage := String → Option String

/-- The method `localStorage.getItem`. -/
def Storage.getItem (st : Storage) (key : String) : Option String := st key

/-- The method `localStorage.setItem`. -/
def Storage.setItem (st : Storage) (key value : String) : Storage :=
  fun k => if k = key then some value else st k

/-- The method `localStorage.removeItem`. -/
def Storage.removeItem (st : Storage) (key : String) : Storage :=
  fun k => if k = key then none else st k

/-- The React state of `App`, and the browser storage it reads and writes. -/
structure AppState (Net : Type) where
  formData : FormData
  trainedNet : Option Net
  predictedPrice : Option JSNum
  data : List PropertyRecord
  chartData : Option ChartData
  localStorage : Storage

/-- What a handler does besides updating the state, in program order. -/
inductive Effect where
  | consoleLog (msg : String)
  | consoleError (msg : String)
  | alert (msg : String)
  | fetch (url : String)
  | netTrain (formattedData : List TrainingSample)
  | netRun (input : NetInput)
  | uncaught (error : String)
  deriving DecidableEq

/-! ## The component -/

/-- The key of every `localStorage` call in the component. -/
def modelKey : String := "trainedModel"

/-- The state of the first render: the `useState` initial values. -/
def initialState {Net : Type} (store : Storage) : AppState Net :=
  { formData := { area := "", bedrooms := "", bathrooms := "", location := "", age := "" }
    trainedNet := none
    predictedPrice := none
    data := []
    chartData := none
    localStorage := store }

/-- The target of a training sample, `item["Price (in $1000)"] / 1000`. -/
def normalizeOutput (price : JSNum) : JSNum := price.div (fin 1000)

/-- The conversion of the network's output in `handlePredict`, `output.price * 1000`. -/
def denormalizeOutput (price : JSNum) : JSNum := price.mul (fin 1000)

/-- The callback of `dataset.map` in `trainModel`. -/
def formatRecord (item : PropertyRecord) : TrainingSample :=
  { input :=
      { area := item.area.div (fin 10000)
        bedrooms := item.bedrooms.div (fin 10)
        bathrooms := item.bathrooms.div (fin 10)
        location := item.location.div (fin 5)
        age := item.age.div (fin 100) }
    price := normalizeOutput item.price }

/-- The network `trainModel` builds: `new NeuralNetwork` with hidden layers 5 and 3, then
`net.train` on the formatted data with 2000 iterations and error threshold 0.005. -/
def fitNetwork {Net Json : Type} (L : Library Net Json) (seed : ℕ)
    (formattedData : List TrainingSample) : Net :=
  L.train [5, 3] 2000 (round64 (5 / 1000)) seed formattedData

/-- The function `trainModel`. -/
def trainModel {Net Json : Type} (L : Library Net Json) (seed : ℕ)
    (dataset : List PropertyRecord) (s : AppState Net) : AppState Net × List Effect :=
  let formattedData := dataset.map formatRecord
  let net := fitNetwork L seed formattedData
  ({ s with
      localStorage := s.localStorage.setItem modelKey (L.stringify (L.toJSON net))
      trainedNet := some net },
   [Effect.consoleLog "📌 Training Model with Data:",
    Effect.netTrain formattedData,
    Effect.consoleLog "✅ Model Training Completed"])

/-- The body of the `useEffect` callback, run once after the first render. -/
def startup {Net Json : Type} (L : Library Net Json) (s : AppState Net) :
    AppState Net × List Effect :=
  match s.localStorage.getItem modelKey with
  | some storedModel =>
    if storedModel ≠ "" then
      match L.parse storedModel with
      | some json =>
        ({ s with trainedNet := some (L.fromJSON json) },
         [Effect.consoleLog "📌 Loading model from LocalStorage..."])
      | none =>
        (s, [Effect.consoleLog "📌 Loading model from LocalStorage...",
             Effect.uncaught "SyntaxError"])
    else (s, [Effect.fetch "/real_estate_data.json"])
  | none => (s, [Effect.fetch "/real_estate_data.json"])

/-- The second `then` callback of the fetch: `setData` and `trainModel`. -/
def fetchResolved {Net Json : Type} (L : Library Net Json) (seed : ℕ)
    (responseData : List PropertyRecord) (s : AppState Net) : AppState Net × List Effect :=
  trainModel L seed responseData { s with data := responseData }

/-- The `catch` callback of the fetch. -/
def fetchRejected {Net : Type} (s : AppState Net) : AppState Net × List Effect :=
  (s, [Effect.consoleError "❌ Error loading data:"])

/-- The object spread of `handleChange`, for the names of the five inputs. -/
def FormData.set (f : FormData) (name value : String) : FormData :=
  if name = "area" then { f with area := value }
  else if name = "bedrooms" then { f with bedrooms := value }
  else if name = "bathrooms" then { f with bathrooms := value }
  else if name = "location" then { f with location := value }
  else if name = "age" then { f with age := value }
  else f

/-- The function `handleChange`. -/
def handleChange {Net : Type} (name value : String) (s : AppState Net) :
    AppState Net × List Effect :=
  ({ s with formData := s.formData.set name value }, [])

/-- The object `input` of `handlePredict`. -/
def predictInput {Net Json : Type} (L : Library Net Json) (f : FormData) : NetInput :=
  { area := (L.parseFloat f.area).div (fin 10000)
    bedrooms := (L.parseFloat f.bedrooms).div (fin 10)
    bathrooms := (L.parseFloat f.bathrooms).div (fin 10)
    location := (L.parseFloat f.location).div (fin 5)
    age := (L.parseFloat f.age).div (fin 100) }

/-- The test `output && output.price`: the price when the test passes. -/
def usablePrice : Option NetOutput → Option JSNum
  | some { price := some p } => if p.truthy then some p else none
  | _ => none

/-- The first bar of the chart, `data.length > 0 ? data[0]["Price (in $1000)"] : 0`. -/
def actualPrice : List PropertyRecord → JSNum
  | [] => fin 0
  | item :: _ => item.price

/-- The object given to `setChartData`. -/
def comparisonChart (actual predicted : JSNum) : ChartData :=
  { labels := ["Actual Price", "Predicted Price"]
    datasets :=
      [{ label := "Price ($1000s)"
         data := [actual, predicted]
         backgroundColor := ["rgba(75, 192, 192, 0.6)", "rgba(255, 99, 132, 0.6)"] }] }

/-- The function `handlePredict`. -/
def handlePredict {Net Json : Type} (L : Library Net Json) (s : AppState Net) :
    AppState Net × List Effect :=
  match s.trainedNet with
  | none =>
    (s, [Effect.consoleError "❌ Model is not trained yet.",
         Effect.alert "Model is not trained yet. Please train it first."])
  | some trainedNet =>
    let input := predictInput L s.formData
    let output := L.run trainedNet input
    match usablePrice output with
    | some price =>
      let predicted := denormalizeOutput price
      ({ s with
          predictedPrice := some predicted
          chartData := some (comparisonChart (actualPrice s.data) predicted) },
       [Effect.consoleLog "📌 User Input:",
        Effect.netRun input,
        Effect.consoleLog "📌 Raw Prediction Output:",
        Effect.consoleLog "✅ Predicted Price:"])
    | none =>
      (s, [Effect.consoleLog "📌 User Input:",
           Effect.netRun input,
           Effect.consoleLog "📌 Raw Prediction Output:",
           Effect.consoleError "❌ Prediction failed: No output from model.",
           Effect.alert "Prediction failed. Please check your input values."])

/-- The function `clearModel`. -/
def clearModel {Net : Type} (s : AppState Net) : AppState Net × List Effect :=
  ({ s with localStorage := s.localStorage.removeItem modelKey, trainedNet := none },
   [Effect.consoleLog "🚀 Model cleared from LocalStorage.",
    Effect.alert "Trained model has been removed. Please refresh the page to retrain."])

/-- The two conditional parts of the rendered page: the price heading and the chart. -/
structure View where
  priceHeading : Option JSNum
  chart : Option ChartData
  deriving DecidableEq

/-- The conditional rendering `predictedPrice && ...` and `chartData && ...`. -/
def render {Net : Type} (s : AppState Net) : View :=
  { priceHeading := s.predictedPrice.filter JSNum.truthy
    chart := s.chartData }

/-! ## Events -/

/-- What can happen to the mounted component: the effect hook after the first render, the
two outcomes of the fetch, and the three user operations. -/
inductive Event where
  | mount
  | fetchResolved (seed : ℕ) (responseData : List PropertyRecord)
  | fetchRejected
  | change (name value : String)
  | predict
  | clear

/-- The handler of one event. -/
def step {Net Json : Type} (L : Library Net Json) (s : AppState Net) :
    Event → AppState Net × List Effect
  | Event.mount => startup L s
  | Event.fetchResolved seed responseData => fetchResolved L seed responseData s
  | Event.fetchRejected => fetchRejected s
  | Event.change name value => handleChange name value s
  | Event.predict => handlePredict L s
  | Event.clear => clearModel s

/-- Handle the events in order, collecting the effects. -/
def runEvents {Net Json : Type} (L : Library Net Json) :
    AppState Net → List Event → AppState Net × List Effect
  | s, [] => (s, [])
  | s, e :: es =>
    ((runEvents L (step L s e).1 es).1, (step L s e).2 ++ (runEvents L (step L s e).1 es).2)

/-- The two operations that write the store: the save inside `trainModel`, and
`clearModel`. -/
inductive StoreOp where
  | save (seed : ℕ) (dataset : List PropertyRecord)
  | clear

/-- The state after one store operation. -/
def StoreOp.apply {Net Json : Type} (L : Library Net Json) (s : AppState Net) :
    StoreOp → AppState Net
  | StoreOp.save seed dataset => (trainModel L seed dataset s).1
  | StoreOp.clear => (clearModel s).1

/-- The state after a sequence of store operations. -/
def applyOps {Net Json : Type} (L : Library Net Json) (s : AppState Net)
    (ops : List StoreOp) : AppState Net :=
  ops.foldl (StoreOp.apply L) s

/-! ## The specification's normalizer -/

namespace Spec

/-- The specification's `normalizeInput`: each field divided by its fixed scale,
area/10000, bedrooms/10, bathrooms/10, location/5, age/100, with no clamping. -/
def normalizeInput (area bedrooms bathrooms locationCode ageYears : JSNum) : NetInput :=
  { area := area.div (fin 10000)
    bedrooms := bedrooms.div (fin 10)
    bathrooms := bathrooms.div (fin 10)
    location := locationCode.div (fin 5)
    age := ageYears.div (fin 100) }

end Spec

/-! ## A small library to run the component on -/

/-- Value of a string of decimal digits; `none` for the empty string and for any other
character. -/
def digitsValue : List Char → Option ℕ
  | [] => none
  | cs => cs.foldl
      (fun acc c => acc.bind fun n => if c.isDigit then some (10 * n + (c.toNat - 48)) else none)
      (some 0)

/-- A library whose networks are one number `w` and answer the price `w / 1024` on every
input that has no NaN field, and NaN otherwise; numbers are written in decimal. -/
def exampleLibrary : Library ℕ ℕ where
  parseFloat := fun text =>
    match digitsValue text.toList with
    | some n => round64 n
    | none => nan
  train := fun _ _ _ seed formattedData => seed + formattedData.length
  run := fun w input =>
    if input.area = nan ∨ input.bedrooms = nan ∨ input.bathrooms = nan ∨ input.location = nan
        ∨ input.age = nan then
      some { price := some nan }
    else some { price := some (fin ((w : ℚ) / 1024)) }
  toJSON := fun w => w
  fromJSON := fun w => w
  stringify := fun w => Nat.repr w
  parse := fun text => digitsValue text.toList

/-- A store that holds the network `256` of `exampleLibrary`, saved in an earlier
session. -/
def savedStore : Storage := Storage.setItem (fun _ => none) modelKey "256"

/-- The empty store. -/
def emptyStore : Storage := fun _ => none

/-- The user types the five fields of the form. -/
def fillForm : List Event :=
  [Event.change "area" "2000", Event.change "bedrooms" "3", Event.change "bathrooms" "2",
   Event.change "location" "3", Event.change "age" "10"]

/-- The state of a session that starts on `savedStore`: the model is loaded from the
store, the user fills the form. -/
def readyFromStore : AppState ℕ :=
  (runEvents exampleLibrary (initialState savedStore) (Event.mount :: fillForm)).1

/-- The state of a session that starts on `savedStore`, before the user types anything. -/
def readyEmptyForm : AppState ℕ :=
  (runEvents exampleLibrary (initialState savedStore) [Event.mount]).1

/-! ## Rounding -/

theorem roundHalfEven_of_near (x : ℚ) (n : ℤ) (h1 : (n : ℚ) - 1 / 2 < x) (h2 : x < n + 1 / 2) :
    roundHalfEven x = n := by
  unfold roundHalfEven
  have hf1 : (⌊x⌋ : ℚ) ≤ x := Int.floor_le x
  have hf2 : x < ⌊x⌋ + 1 := Int.lt_floor_add_one x
  split_ifs with a b c
  · have h3 : (n : ℚ) - 1 < ⌊x⌋ := by linarith
    have h4 : (⌊x⌋ : ℚ) < n + 1 := by linarith
    have h3' : n - 1 < ⌊x⌋ := by exact_mod_cast h3
    have h4' : ⌊x⌋ < n + 1 := by exact_mod_cast h4
    omega
  · have h3 : (n : ℚ) - 1 < ⌊x⌋ + 1 := by linarith
    have h4 : (⌊x⌋ : ℚ) + 1 < n + 1 := by linarith
    have h3' : n - 1 < ⌊x⌋ + 1 := by exact_mod_cast h3
    have h4' : ⌊x⌋ + 1 < n + 1 := by exact_mod_cast h4
    omega
  · have e : x - ⌊x⌋ = 1 / 2 := le_antisymm (not_lt.mp b) (not_lt.mp a)
    have h3 : (n : ℚ) - 1 < ⌊x⌋ := by linarith
    have h4 : (⌊x⌋ : ℚ) < n := by linarith
    have h3' : n - 1 < ⌊x⌋ := by exact_mod_cast h3
    have h4' : ⌊x⌋ < n := by exact_mod_cast h4
    omega
  · have e : x - ⌊x⌋ = 1 / 2 := le_antisymm (not_lt.mp b) (not_lt.mp a)
    have h3 : (n : ℚ) - 1 < ⌊x⌋ := by linarith
    have h4 : (⌊x⌋ : ℚ) < n := by linarith
    have h3' : n - 1 < ⌊x⌋ := by exact_mod_cast h3
    have h4' : ⌊x⌋ < n := by exact_mod_cast h4
    omega

theorem roundHalfEven_abs_sub_le (x : ℚ) : |(roundHalfEven x : ℚ) - x| ≤ 1 / 2 := by
  unfold roundHalfEven
  have hf1 : (⌊x⌋ : ℚ) ≤ x := Int.floor_le x
  have hf2 : x < ⌊x⌋ + 1 := Int.lt_floor_add_one x
  rw [abs_le]
  split_ifs with a b c
  · constructor <;> linarith
  · push_cast; constructor <;> linarith
  · have e : x - ⌊x⌋ = 1 / 2 := le_antisymm (not_lt.mp b) (not_lt.mp a)
    constructor <;> linarith
  · have e : x - ⌊x⌋ = 1 / 2 := le_antisymm (not_lt.mp b) (not_lt.mp a)
    push_cast; constructor <;> linarith

theorem binade_of_bounds (q : ℚ) (e : ℤ) (he : -1022 ≤ e) (h1 : (2 : ℚ) ^ e ≤ |q|)
    (h2 : |q| < (2 : ℚ) ^ (e + 1)) : binade q = e := by
  have hpos : 0 < |q| := lt_of_lt_of_le (by positivity) h1
  have hlog : Int.log 2 |q| = e := by
    apply le_antisymm
    · have := (Int.lt_zpow_iff_log_lt (b := 2) (by norm_num) hpos (x := e + 1)).mp
        (by exact_mod_cast h2)
      omega
    · exact (Int.zpow_le_iff_le_log (b := 2) (by norm_num) hpos).mp (by exact_mod_cast h1)
  unfold binade
  rw [hlog]
  exact max_eq_left he

theorem ulp_of_bounds (q : ℚ) (e : ℤ) (he : -1022 ≤ e) (h1 : (2 : ℚ) ^ e ≤ |q|)
    (h2 : |q| < (2 : ℚ) ^ (e + 1)) : ulp q = (2 : ℚ) ^ (e - 52) := by
  unfold ulp
  rw [binade_of_bounds q e he h1 h2]

/-- Value of `round64` at a number whose binade and rounded significand are known. -/
theorem round64_eval (q : ℚ) (e n : ℤ) (he : -1022 ≤ e) (h1 : (2 : ℚ) ^ e ≤ |q|)
    (h2 : |q| < (2 : ℚ) ^ (e + 1))
    (h3 : (n : ℚ) - 1 / 2 < q / (2 : ℚ) ^ (e - 52)) (h4 : q / (2 : ℚ) ^ (e - 52) < n + 1 / 2)
    (h5 : |(n : ℚ) * (2 : ℚ) ^ (e - 52)| < (2 : ℚ) ^ (1024 : ℤ)) :
    round64 q = fin ((n : ℚ) * (2 : ℚ) ^ (e - 52)) := by
  unfold round64
  rw [ulp_of_bounds q e he h1 h2, roundHalfEven_of_near _ n h3 h4, if_neg (not_le.mpr h5)]

/-- In the normal range `round64` is finite and within relative error `2^-53`. -/
theorem round64_rel (q : ℚ) (hlo : (2 : ℚ) ^ (-1022 : ℤ) ≤ |q|)
    (hhi : |q| ≤ (2 : ℚ) ^ (1023 : ℤ)) :
    ∃ r : ℚ, round64 q = fin r ∧ |r - q| ≤ (2 : ℚ) ^ (-53 : ℤ) * |q| := by
  have hpos : 0 < |q| := lt_of_lt_of_le (by positivity) hlo
  have h1 : (2 : ℚ) ^ (Int.log 2 |q|) ≤ |q| := by
    have := Int.zpow_log_le_self (b := 2) (by norm_num) hpos
    exact_mod_cast this
  have h2 : |q| < (2 : ℚ) ^ (Int.log 2 |q| + 1) := by
    have := Int.lt_zpow_succ_log_self (b := 2) (by norm_num) |q|
    exact_mod_cast this
  have he : -1022 ≤ Int.log 2 |q| :=
    (Int.zpow_le_iff_le_log (b := 2) (by norm_num) hpos).mp (by exact_mod_cast hlo)
  have hu : ulp q = (2 : ℚ) ^ (Int.log 2 |q| - 52) := ulp_of_bounds q _ he h1 h2
  have hupos : 0 < ulp q := by rw [hu]; positivity
  have herr : |(roundHalfEven (q / ulp q) : ℚ) * ulp q - q| ≤ (2 : ℚ) ^ (-53 : ℤ) * |q| := by
    have hx := roundHalfEven_abs_sub_le (q / ulp q)
    have e1 : (roundHalfEven (q / ulp q) : ℚ) * ulp q - q
        = ((roundHalfEven (q / ulp q) : ℚ) - q / ulp q) * ulp q := by
      field_simp
    rw [e1, abs_mul, abs_of_pos hupos]
    have e2 : ulp q = (2 : ℚ) ^ (-52 : ℤ) * (2 : ℚ) ^ (Int.log 2 |q|) := by
      rw [hu, ← zpow_add₀ (by norm_num : (2 : ℚ) ≠ 0)]
      congr 1
      ring
    have e3 : (2 : ℚ) ^ (-53 : ℤ) = 1 / 2 * (2 : ℚ) ^ (-52 : ℤ) := by
      rw [show (-53 : ℤ) = -1 + -52 by norm_num, zpow_add₀ (by norm_num : (2 : ℚ) ≠ 0)]
      norm_num
    calc |(roundHalfEven (q / ulp q) : ℚ) - q / ulp q| * ulp q
        ≤ 1 / 2 * ulp q := mul_le_mul_of_nonneg_right hx hupos.le
      _ = 1 / 2 * (2 : ℚ) ^ (-52 : ℤ) * (2 : ℚ) ^ (Int.log 2 |q|) := by rw [e2]; ring
      _ ≤ 1 / 2 * (2 : ℚ) ^ (-52 : ℤ) * |q| :=
          mul_le_mul_of_nonneg_left h1 (by positivity)
      _ = (2 : ℚ) ^ (-53 : ℤ) * |q| := by rw [e3]
  refine ⟨(roundHalfEven (q / ulp q) : ℚ) * ulp q, ?_, herr⟩
  unfold round64
  rw [if_neg]
  rw [not_le]
  have hb : |(roundHalfEven (q / ulp q) : ℚ) * ulp q| ≤ |q| + (2 : ℚ) ^ (-53 : ℤ) * |q| := by
    have := abs_sub_abs_le_abs_sub ((roundHalfEven (q / ulp q) : ℚ) * ulp q) q
    linarith
  have h53 : (2 : ℚ) ^ (-53 : ℤ) ≤ 1 / 2 := by
    rw [zpow_neg]; norm_num
  have hM : (0 : ℚ) < (2 : ℚ) ^ (1023 : ℤ) := by positivity
  have h1023 : (2 : ℚ) ^ (1024 : ℤ) = (2 : ℚ) ^ (1023 : ℤ) * 2 := by
    rw [show (1024 : ℤ) = 1023 + 1 by norm_num, zpow_add₀ (by norm_num : (2 : ℚ) ≠ 0)]
    norm_num
  rw [h1023]
  have hq := abs_nonneg q
  have : (2 : ℚ) ^ (-53 : ℤ) * |q| ≤ 1 / 2 * |q| := mul_le_mul_of_nonneg_right h53 hq
  linarith

theorem round64_ne_nan (q : ℚ) : round64 q ≠ nan := by
  unfold round64
  split_ifs <;> simp

theorem div_fin_eq_nan_iff (x : JSNum) (c : ℚ) (hc : c ≠ 0) : x.div (fin c) = nan ↔ x = nan := by
  cases x with
  | nan => simp [JSNum.div]
  | inf s => simp [JSNum.div]
  | fin a => simp [JSNum.div, hc, round64_ne_nan]

theorem nan_div (y : JSNum) : JSNum.nan.div y = nan := by
  cases y <;> rfl

theorem truthy_of_ne (p : JSNum) (h1 : p ≠ nan) (h2 : p ≠ fin 0) : p.truthy = true := by
  cases p with
  | nan => exact absurd rfl h1
  | inf s => rfl
  | fin q =>
    simp only [JSNum.truthy, decide_eq_true_eq]
    intro h
    exact h2 (by rw [h])

/-! ## The unit round trip of prices -/

theorem round64_1001 : round64 (1001 / 1000) = fin (4508103226997866 / 4503599627370496) := by
  have := round64_eval (1001 / 1000) 0 4508103226997866 (by norm_num) (by norm_num [abs_of_pos])
    (by norm_num [abs_of_pos]) (by norm_num) (by norm_num) (by norm_num [abs_of_pos])
  rw [this]
  norm_num

theorem round64_1001_back : round64 (4508103226997866 / 4503599627370496 * 1000)
    = fin (8804889115230207 / 8796093022208) := by
  have := round64_eval (4508103226997866 / 4503599627370496 * 1000) 9 8804889115230207
    (by norm_num) (by norm_num [abs_of_pos])
    (by norm_num [abs_of_pos]) (by norm_num) (by norm_num) (by norm_num [abs_of_pos])
  rw [this]
  norm_num

/-- C4, as stated, fails: the price 1001 (in $1000s) comes back from the round trip as
`1000.9999999999999`, the binary64 number `8804889115230207 / 2^43`. -/
theorem price_round_trip_1001 :
    denormalizeOutput (normalizeOutput (fin 1001)) = fin (8804889115230207 / 8796093022208)
      ∧ denormalizeOutput (normalizeOutput (fin 1001)) ≠ fin 1001 := by
  have h : denormalizeOutput (normalizeOutput (fin 1001))
      = fin (8804889115230207 / 8796093022208) := by
    simp only [normalizeOutput, denormalizeOutput, JSNum.div]
    rw [if_neg (by norm_num), round64_1001]
    simp only [JSNum.mul]
    exact round64_1001_back
  refine ⟨h, ?_⟩
  rw [h]
  intro hc
  injection hc with hc
  norm_num at hc

/-- The two roundings of the round trip, with the constants of binary64 abstracted. -/
theorem round_trip_bound (u A B C D : ℚ) (rnd : ℚ → JSNum)
    (R : ∀ q : ℚ, C ≤ |q| → |q| ≤ D → ∃ r : ℚ, rnd q = fin r ∧ |r - q| ≤ u * |q|)
    (hu0 : 0 < u) (hu1 : u ≤ 1 / 2) (hsmall : C ≤ A * (1 / 2000)) (hbig : B * 2000 ≤ D)
    (hA : 0 < A) (p : ℚ) (hlo : A ≤ |p|) (hhi : |p| ≤ B) :
    ∃ a r : ℚ, rnd (p / 1000) = fin a ∧ rnd (a * 1000) = fin r ∧ |r - p| ≤ 4 * u * |p| := by
  have hP : 0 ≤ |p| := abs_nonneg p
  have hq1 : |p / 1000| = |p| / 1000 := by rw [abs_div]; norm_num
  obtain ⟨a, ha, hae⟩ := R (p / 1000) (by rw [hq1]; linarith) (by rw [hq1]; linarith)
  rw [hq1] at hae
  have hup : u * (|p| / 1000) ≤ 1 / 2 * (|p| / 1000) :=
    mul_le_mul_of_nonneg_right hu1 (by positivity)
  have ha_lo : |p| / 2000 ≤ |a| := by
    have := abs_sub_abs_le_abs_sub (p / 1000) a
    rw [hq1, abs_sub_comm] at this
    linarith
  have ha_hi : |a| ≤ |p| / 1000 + 1 / 2 * (|p| / 1000) := by
    have := abs_sub_abs_le_abs_sub a (p / 1000)
    rw [hq1] at this
    linarith
  have hq2 : |a * 1000| = |a| * 1000 := by rw [abs_mul]; norm_num
  obtain ⟨r, hr, hre⟩ := R (a * 1000) (by rw [hq2]; linarith) (by rw [hq2]; linarith)
  rw [hq2] at hre
  refine ⟨a, r, ha, hr, ?_⟩
  have h1 : |a * 1000 - p| = 1000 * |a - p / 1000| := by
    rw [show a * 1000 - p = 1000 * (a - p / 1000) by ring, abs_mul]
    norm_num
  have h2 : |r - p| ≤ |r - a * 1000| + |a * 1000 - p| := by
    have := abs_add (r - a * 1000) (a * 1000 - p)
    simpa using this
  have h3 : u * (|a| * 1000) ≤ u * (2 * |p|) :=
    mul_le_mul_of_nonneg_left (by linarith) hu0.le
  have h4 : 0 ≤ u * |p| := mul_nonneg hu0.le hP
  have h5 : u * (2 * |p|) = 2 * (u * |p|) := by ring
  have h6 : 1000 * (u * (|p| / 1000)) = u * |p| := by ring
  have h7 : 4 * u * |p| = 4 * (u * |p|) := by ring
  rw [h7]
  linarith

/-- C4, amended: for every finite price of ordinary size the round trip returns a finite
number whose distance from the price is at most `2^-51` times the price. -/
theorem price_round_trip_error (p : ℚ) (hlo : (2 : ℚ) ^ (-1000 : ℤ) ≤ |p|)
    (hhi : |p| ≤ (2 : ℚ) ^ (1000 : ℤ)) :
    ∃ r : ℚ, denormalizeOutput (normalizeOutput (fin p)) = fin r
      ∧ |r - p| ≤ (2 : ℚ) ^ (-51 : ℤ) * |p| := by
  have two : (2 : ℚ) ≠ 0 := by norm_num
  have hu0 : (0 : ℚ) < (2 : ℚ) ^ (-53 : ℤ) := by positivity
  have hu1 : (2 : ℚ) ^ (-53 : ℤ) ≤ 1 / 2 := by rw [zpow_neg]; norm_num
  have h51 : (2 : ℚ) ^ (-51 : ℤ) = 4 * (2 : ℚ) ^ (-53 : ℤ) := by
    rw [show (-51 : ℤ) = 2 + -53 by norm_num, zpow_add₀ two]
    norm_num
  have hsmall : (2 : ℚ) ^ (-1022 : ℤ) ≤ (2 : ℚ) ^ (-1000 : ℤ) * (1 / 2000) := by
    rw [show (-1022 : ℤ) = -1000 + -22 by norm_num, zpow_add₀ two]
    have h22 : (2 : ℚ) ^ (-22 : ℤ) ≤ 1 / 2000 := by rw [zpow_neg]; norm_num
    exact mul_le_mul_of_nonneg_left h22 (by positivity)
  have hbig : (2 : ℚ) ^ (1000 : ℤ) * 2000 ≤ (2 : ℚ) ^ (1023 : ℤ) := by
    rw [show (1023 : ℤ) = 1000 + 23 by norm_num, zpow_add₀ two]
    have h23 : (2000 : ℚ) ≤ (2 : ℚ) ^ (23 : ℤ) := by norm_num
    exact mul_le_mul_of_nonneg_left h23 (by positivity)
  obtain ⟨a, r, ha, hr, hb⟩ := round_trip_bound _ _ _ _ _ round64 round64_rel hu0 hu1 hsmall hbig
    (by positivity) p hlo hhi
  refine ⟨r, ?_, by rw [h51]; exact hb⟩
  simp only [normalizeOutput, denormalizeOutput, JSNum.div]
  rw [if_neg (by norm_num), ha]
  simpa only [JSNum.mul] using hr

theorem price_round_trip_error_witness :
    (2 : ℚ) ^ (-1000 : ℤ) ≤ |(1001 : ℚ)| ∧ |(1001 : ℚ)| ≤ (2 : ℚ) ^ (1000 : ℤ)
      ∧ ∃ r : ℚ, denormalizeOutput (normalizeOutput (fin 1001)) = fin r
          ∧ |r - 1001| ≤ (2 : ℚ) ^ (-51 : ℤ) * |(1001 : ℚ)| := by
  have h1 : (2 : ℚ) ^ (-1000 : ℤ) ≤ |(1001 : ℚ)| := by
    rw [abs_of_pos (by norm_num), zpow_neg]
    have : (1 : ℚ) ≤ (2 : ℚ) ^ (1000 : ℤ) := one_le_zpow₀ (by norm_num) (by norm_num)
    have h0 : (0 : ℚ) < (2 : ℚ) ^ (1000 : ℤ) := by positivity
    have : ((2 : ℚ) ^ (1000 : ℤ))⁻¹ ≤ 1 := inv_le_one_of_one_le₀ this
    linarith
  have h2 : |(1001 : ℚ)| ≤ (2 : ℚ) ^ (1000 : ℤ) := by
    rw [abs_of_pos (by norm_num), show (1000 : ℤ) = 10 + 990 by norm_num,
      zpow_add₀ (by norm_num : (2 : ℚ) ≠ 0)]
    have h990 : (1 : ℚ) ≤ (2 : ℚ) ^ (990 : ℤ) := one_le_zpow₀ (by norm_num) (by norm_num)
    have h10 : (1001 : ℚ) ≤ (2 : ℚ) ^ (10 : ℤ) := by norm_num
    calc (1001 : ℚ) ≤ (2 : ℚ) ^ (10 : ℤ) * 1 := by linarith
      _ ≤ (2 : ℚ) ^ (10 : ℤ) * (2 : ℚ) ^ (990 : ℤ) :=
          mul_le_mul_of_nonneg_left h990 (by positivity)
  exact ⟨h1, h2, price_round_trip_error 1001 h1 h2⟩

/-! ## The handlers -/

theorem handlePredict_of_usable {Net Json : Type} (L : Library Net Json) (s : AppState Net)
    (net : Net) (p : JSNum) (hnet : s.trainedNet = some net)
    (hp : usablePrice (L.run net (predictInput L s.formData)) = some p) :
    handlePredict L s =
      ({ s with
          predictedPrice := some (denormalizeOutput p)
          chartData := some (comparisonChart (actualPrice s.data) (denormalizeOutput p)) },
       [Effect.consoleLog "📌 User Input:",
        Effect.netRun (predictInput L s.formData),
        Effect.consoleLog "📌 Raw Prediction Output:",
        Effect.consoleLog "✅ Predicted Price:"]) := by
  simp only [handlePredict, hnet, hp]

theorem handlePredict_of_unusable {Net Json : Type} (L : Library Net Json) (s : AppState Net)
    (net : Net) (hnet : s.trainedNet = some net)
    (hp : usablePrice (L.run net (predictInput L s.formData)) = none) :
    handlePredict L s =
      (s, [Effect.consoleLog "📌 User Input:",
           Effect.netRun (predictInput L s.formData),
           Effect.consoleLog "📌 Raw Prediction Output:",
           Effect.consoleError "❌ Prediction failed: No output from model.",
           Effect.alert "Prediction failed. Please check your input values."]) := by
  simp only [handlePredict, hnet, hp]

theorem usablePrice_of_truthy (p : JSNum) (h : p.truthy = true) :
    usablePrice (some { price := some p }) = some p := by
  simp [usablePrice, h]

theorem readyFromStore_eq : readyFromStore =
    { formData :=
        { area := "2000", bedrooms := "3", bathrooms := "2", location := "3", age := "10" }
      trainedNet := some 256
      predictedPrice := none
      data := []
      chartData := none
      localStorage := savedStore } := by
  rfl

theorem readyEmptyForm_eq : readyEmptyForm =
    { formData := { area := "", bedrooms := "", bathrooms := "", location := "", age := "" }
      trainedNet := some 256
      predictedPrice := none
      data := []
      chartData := none
      localStorage := savedStore } := by
  rfl

/-! ## The example library -/

theorem example_parseFloat_ne_nan (text : String) (n : ℕ)
    (h : digitsValue text.toList = some n) : exampleLibrary.parseFloat text ≠ nan := by
  simp only [exampleLibrary, h]
  exact round64_ne_nan _

theorem readyFromStore_input_ne_nan :
    ¬ ((predictInput exampleLibrary readyFromStore.formData).area = nan
      ∨ (predictInput exampleLibrary readyFromStore.formData).bedrooms = nan
      ∨ (predictInput exampleLibrary readyFromStore.formData).bathrooms = nan
      ∨ (predictInput exampleLibrary readyFromStore.formData).location = nan
      ∨ (predictInput exampleLibrary readyFromStore.formData).age = nan) := by
  rw [readyFromStore_eq]
  simp only [predictInput]
  rw [div_fin_eq_nan_iff _ _ (by norm_num), div_fin_eq_nan_iff _ _ (by norm_num),
    div_fin_eq_nan_iff _ _ (by norm_num), div_fin_eq_nan_iff _ _ (by norm_num),
    div_fin_eq_nan_iff _ _ (by norm_num)]
  have h1 := example_parseFloat_ne_nan "2000" 2000 (by decide)
  have h2 := example_parseFloat_ne_nan "3" 3 (by decide)
  have h3 := example_parseFloat_ne_nan "2" 2 (by decide)
  have h4 := example_parseFloat_ne_nan "10" 10 (by decide)
  tauto

theorem readyFromStore_run :
    exampleLibrary.run 256 (predictInput exampleLibrary readyFromStore.formData)
      = some { price := some (fin (1 / 4)) } := by
  have h : exampleLibrary.run 256 (predictInput exampleLibrary readyFromStore.formData)
      = some { price := some (fin (((256 : ℕ) : ℚ) / 1024)) } := by
    show (if _ then _ else _) = _
    rw [if_neg readyFromStore_input_ne_nan]
  rw [h, show (((256 : ℕ) : ℚ) / 1024) = 1 / 4 by norm_num]

theorem readyFromStore_usable :
    usablePrice (exampleLibrary.run 256 (predictInput exampleLibrary readyFromStore.formData))
      = some (fin (1 / 4)) := by
  rw [readyFromStore_run]
  exact usablePrice_of_truthy _ (by simp [JSNum.truthy])

theorem readyEmptyForm_input :
    predictInput exampleLibrary readyEmptyForm.formData
      = { area := nan, bedrooms := nan, bathrooms := nan, location := nan, age := nan } := by
  rfl

theorem readyEmptyForm_run :
    exampleLibrary.run 256 (predictInput exampleLibrary readyEmptyForm.formData)
      = some { price := some nan } := by
  rw [readyEmptyForm_input]
  rfl

/-! ## The claims -/

/-- C1: with no trained model held, a predict request only logs and shows the not-ready
warning: the forward pass is not run, and the state, with its predicted price and chart
data, stays as it was. -/
theorem handlePredict_not_ready {Net Json : Type} (L : Library Net Json) (s : AppState Net)
    (h : s.trainedNet = none) :
    handlePredict L s =
        (s, [Effect.consoleError "❌ Model is not trained yet.",
             Effect.alert "Model is not trained yet. Please train it first."])
      ∧ (∀ input, Effect.netRun input ∉ (handlePredict L s).2)
      ∧ (handlePredict L s).1.predictedPrice = s.predictedPrice
      ∧ (handlePredict L s).1.chartData = s.chartData := by
  have e : handlePredict L s =
      (s, [Effect.consoleError "❌ Model is not trained yet.",
           Effect.alert "Model is not trained yet. Please train it first."]) := by
    simp only [handlePredict, h]
  rw [e]
  simp

theorem handlePredict_not_ready_witness :
    (initialState emptyStore : AppState ℕ).trainedNet = none
      ∧ handlePredict exampleLibrary (initialState emptyStore) =
        (initialState emptyStore,
          [Effect.consoleError "❌ Model is not trained yet.",
           Effect.alert "Model is not trained yet. Please train it first."])
      ∧ (∀ input, Effect.netRun input ∉ (handlePredict exampleLibrary (initialState emptyStore)).2)
      ∧ (handlePredict exampleLibrary (initialState emptyStore)).1.predictedPrice = none
      ∧ (handlePredict exampleLibrary (initialState emptyStore)).1.chartData = none :=
  ⟨rfl, handlePredict_not_ready exampleLibrary (initialState emptyStore) rfl⟩

/-- C3, as stated, fails: in a session that loads the model from the store, fills the form
and predicts, a clear followed by another predict request shows the warning and still
holds, and renders, the earlier predicted price and chart. -/
theorem clear_then_predict_keeps_result :
    (handlePredict exampleLibrary
        (clearModel (handlePredict exampleLibrary readyFromStore).1).1).2
        = [Effect.consoleError "❌ Model is not trained yet.",
           Effect.alert "Model is not trained yet. Please train it first."]
      ∧ (handlePredict exampleLibrary
          (clearModel (handlePredict exampleLibrary readyFromStore).1).1).1.predictedPrice
        = some (denormalizeOutput (fin (1 / 4)))
      ∧ (handlePredict exampleLibrary
          (clearModel (handlePredict exampleLibrary readyFromStore).1).1).1.chartData
        = some (comparisonChart (fin 0) (denormalizeOutput (fin (1 / 4))))
      ∧ (render (handlePredict exampleLibrary
          (clearModel (handlePredict exampleLibrary readyFromStore).1).1).1).chart ≠ none := by
  rw [handlePredict_of_usable exampleLibrary readyFromStore 256 (fin (1 / 4)) rfl
    readyFromStore_usable]
  refine ⟨rfl, rfl, rfl, ?_⟩
  simp [render, clearModel, handlePredict]

/-- C3, amended: from every state, a clear followed by a predict request shows the
not-ready warning and produces no new result: the predicted price and the chart data are
what they were before the clear, so nothing is rendered when they were null. -/
theorem clear_then_predict {Net Json : Type} (L : Library Net Json) (s : AppState Net) :
    (handlePredict L (clearModel s).1).2
        = [Effect.consoleError "❌ Model is not trained yet.",
           Effect.alert "Model is not trained yet. Please train it first."]
      ∧ (handlePredict L (clearModel s).1).1.trainedNet = none
      ∧ (handlePredict L (clearModel s).1).1.predictedPrice = s.predictedPrice
      ∧ (handlePredict L (clearModel s).1).1.chartData = s.chartData
      ∧ render (handlePredict L (clearModel s).1).1 = render s
      ∧ (s.predictedPrice = none → s.chartData = none →
          render (handlePredict L (clearModel s).1).1 = { priceHeading := none, chart := none })
      := by
  refine ⟨?_, ?_, ?_, ?_, ?_, ?_⟩
  · simp [handlePredict, clearModel]
  · simp [handlePredict, clearModel]
  · simp [handlePredict, clearModel]
  · simp [handlePredict, clearModel]
  · simp [handlePredict, clearModel, render]
  · intro h1 h2
    simp [handlePredict, clearModel, render, h1, h2]

/-- C6: when the store holds a saved model under the fixed key (a non-empty text that
parses), the startup step sets the model rebuilt from that text and does nothing else: no
fetch, no training, and the store, the dataset and the rest of the state are unchanged. -/
theorem startup_with_persisted_model {Net Json : Type} (L : Library Net Json)
    (s : AppState Net) (storedModel : String) (json : Json)
    (hstored : s.localStorage.getItem modelKey = some storedModel)
    (hnonempty : storedModel ≠ "") (hparse : L.parse storedModel = some json) :
    startup L s =
        ({ s with trainedNet := some (L.fromJSON json) },
         [Effect.consoleLog "📌 Loading model from LocalStorage..."])
      ∧ (startup L s).1.trainedNet = some (L.fromJSON json)
      ∧ (startup L s).1.localStorage = s.localStorage
      ∧ (∀ url, Effect.fetch url ∉ (startup L s).2)
      ∧ (∀ formattedData, Effect.netTrain formattedData ∉ (startup L s).2) := by
  have e : startup L s =
      ({ s with trainedNet := some (L.fromJSON json) },
       [Effect.consoleLog "📌 Loading model from LocalStorage..."]) := by
    simp only [startup, hstored, hparse]
    rw [if_pos hnonempty]
  rw [e]
  simp

theorem startup_with_persisted_model_witness :
    savedStore.getItem modelKey = some "256" ∧ "256" ≠ ""
      ∧ exampleLibrary.parse "256" = some 256
      ∧ startup exampleLibrary (initialState savedStore) =
        ({ (initialState savedStore : AppState ℕ) with
            trainedNet := some (exampleLibrary.fromJSON 256) },
         [Effect.consoleLog "📌 Loading model from LocalStorage..."])
      ∧ (startup exampleLibrary (initialState savedStore)).1.trainedNet
          = some (exampleLibrary.fromJSON 256)
      ∧ (startup exampleLibrary (initialState savedStore)).1.localStorage = savedStore
      ∧ (∀ url, Effect.fetch url ∉ (startup exampleLibrary (initialState savedStore)).2)
      ∧ (∀ formattedData,
          Effect.netTrain formattedData ∉ (startup exampleLibrary (initialState savedStore)).2) :=
  ⟨by decide, by decide, by decide,
    startup_with_persisted_model exampleLibrary (initialState savedStore) "256" 256
      (by decide) (by decide) (by decide)⟩

/-- C7, as stated, fails: in a session whose model is loaded from the store no dataset is
held, and the first bar of a successful prediction is 0, the price of no record. -/
theorem chart_actual_without_dataset :
    readyFromStore = (runEvents exampleLibrary (initialState savedStore)
        (Event.mount :: fillForm)).1
      ∧ readyFromStore.data = []
      ∧ (handlePredict exampleLibrary readyFromStore).1.predictedPrice
        = some (denormalizeOutput (fin (1 / 4)))
      ∧ (handlePredict exampleLibrary readyFromStore).1.chartData
        = some
          { labels := ["Actual Price", "Predicted Price"]
            datasets :=
              [{ label := "Price ($1000s)"
                 data := [fin 0, denormalizeOutput (fin (1 / 4))]
                 backgroundColor := ["rgba(75, 192, 192, 0.6)", "rgba(255, 99, 132, 0.6)"] }] } := by
  rw [handlePredict_of_usable exampleLibrary readyFromStore 256 (fin (1 / 4)) rfl
    readyFromStore_usable]
  exact ⟨rfl, rfl, rfl, rfl⟩

/-- C7, amended: every successful prediction sets the chart's series to the pair (actual,
predicted) in that order, where predicted is the denormalized output and actual is the
first record's price when the held dataset is not empty, and 0 when it is empty; the
dataset is the fetched one after a fetch, and is left as it was, empty on a fresh page,
when the model is loaded from the store. -/
theorem comparison_series {Net Json : Type} (L : Library Net Json) (s : AppState Net)
    (net : Net) (p : JSNum) (hnet : s.trainedNet = some net)
    (hp : usablePrice (L.run net (predictInput L s.formData)) = some p) :
    (handlePredict L s).1.chartData
        = some
          { labels := ["Actual Price", "Predicted Price"]
            datasets :=
              [{ label := "Price ($1000s)"
                 data := [actualPrice s.data, denormalizeOutput p]
                 backgroundColor := ["rgba(75, 192, 192, 0.6)", "rgba(255, 99, 132, 0.6)"] }] }
      ∧ (∀ item rest, s.data = item :: rest → actualPrice s.data = item.price)
      ∧ (s.data = [] → actualPrice s.data = fin 0)
      ∧ (∀ seed responseData, (fetchResolved L seed responseData s).1.data = responseData)
      ∧ (startup L s).1.data = s.data
      ∧ (∀ store : Storage, (initialState store : AppState Net).data = []) := by
  rw [handlePredict_of_usable L s net p hnet hp]
  refine ⟨rfl, ?_, ?_, fun _ _ => rfl, ?_, fun _ => rfl⟩
  · intro item rest h
    rw [h]
    rfl
  · intro h
    rw [h]
    rfl
  · unfold startup
    split
    · split
      · split <;> rfl
      · rfl
    · rfl

theorem comparison_series_witness :
    readyFromStore.trainedNet = some 256
      ∧ usablePrice (exampleLibrary.run 256 (predictInput exampleLibrary readyFromStore.formData))
        = some (fin (1 / 4))
      ∧ (handlePredict exampleLibrary readyFromStore).1.chartData
        = some
          { labels := ["Actual Price", "Predicted Price"]
            datasets :=
              [{ label := "Price ($1000s)"
                 data := [actualPrice readyFromStore.data, denormalizeOutput (fin (1 / 4))]
                 backgroundColor := ["rgba(75, 192, 192, 0.6)", "rgba(255, 99, 132, 0.6)"] }] }
      ∧ (∀ item rest, readyFromStore.data = item :: rest →
          actualPrice readyFromStore.data = item.price)
      ∧ (readyFromStore.data = [] → actualPrice readyFromStore.data = fin 0)
      ∧ (∀ seed responseData,
          (fetchResolved exampleLibrary seed responseData readyFromStore).1.data = responseData)
      ∧ (startup exampleLibrary readyFromStore).1.data = readyFromStore.data
      ∧ (∀ store : Storage, (initialState store : AppState ℕ).data = []) :=
  ⟨rfl, readyFromStore_usable,
    comparison_series exampleLibrary readyFromStore 256 (fin (1 / 4)) rfl readyFromStore_usable⟩

/-- C8, as stated, fails: with the form still empty the forward pass returns an output
that has a price field, holding NaN, and the predict request takes the
prediction-unavailable branch: no predicted price is set. -/
theorem nan_price_is_unavailable :
    readyEmptyForm.trainedNet = some 256
      ∧ exampleLibrary.run 256 (predictInput exampleLibrary readyEmptyForm.formData)
        = some { price := some nan }
      ∧ (handlePredict exampleLibrary readyEmptyForm).1.predictedPrice = none
      ∧ (handlePredict exampleLibrary readyEmptyForm).2
        = [Effect.consoleLog "📌 User Input:",
           Effect.netRun (predictInput exampleLibrary readyEmptyForm.formData),
           Effect.consoleLog "📌 Raw Prediction Output:",
           Effect.consoleError "❌ Prediction failed: No output from model.",
           Effect.alert "Prediction failed. Please check your input values."] := by
  have hp : usablePrice
      (exampleLibrary.run 256 (predictInput exampleLibrary readyEmptyForm.formData)) = none := by
    rw [readyEmptyForm_run]
    rfl
  rw [handlePredict_of_unusable exampleLibrary readyEmptyForm 256 rfl hp]
  exact ⟨rfl, readyEmptyForm_run, rfl, rfl⟩

/-- C8, amended: with a model held, a predict request sets the predicted price to 1000
times the output's price whenever the forward pass returns an output whose price is a
number other than NaN and 0, and takes the prediction-unavailable branch (warning only,
state unchanged) when the forward pass returns no output, an output without a price field,
or an output whose price is NaN. -/
theorem handlePredict_result {Net Json : Type} (L : Library Net Json) (s : AppState Net)
    (net : Net) (hnet : s.trainedNet = some net) :
    (∀ p : JSNum, L.run net (predictInput L s.formData) = some { price := some p } →
        p ≠ nan → p ≠ fin 0 →
        (handlePredict L s).1.predictedPrice = some (p.mul (fin 1000)))
      ∧ ((L.run net (predictInput L s.formData) = none
            ∨ L.run net (predictInput L s.formData) = some { price := none }
            ∨ L.run net (predictInput L s.formData) = some { price := some nan }) →
          handlePredict L s =
            (s, [Effect.consoleLog "📌 User Input:",
                 Effect.netRun (predictInput L s.formData),
                 Effect.consoleLog "📌 Raw Prediction Output:",
                 Effect.consoleError "❌ Prediction failed: No output from model.",
                 Effect.alert "Prediction failed. Please check your input values."])) := by
  constructor
  · intro p hrun h1 h2
    have hp : usablePrice (L.run net (predictInput L s.formData)) = some p := by
      rw [hrun]
      exact usablePrice_of_truthy p (truthy_of_ne p h1 h2)
    rw [handlePredict_of_usable L s net p hnet hp]
    rfl
  · intro h
    apply handlePredict_of_unusable L s net hnet
    rcases h with h | h | h <;> rw [h] <;> rfl

theorem handlePredict_result_witness :
    readyFromStore.trainedNet = some 256
      ∧ exampleLibrary.run 256 (predictInput exampleLibrary readyFromStore.formData)
        = some { price := some (fin (1 / 4)) }
      ∧ (handlePredict exampleLibrary readyFromStore).1.predictedPrice
        = some ((fin (1 / 4)).mul (fin 1000)) :=
  ⟨rfl, readyFromStore_run,
    (handlePredict_result exampleLibrary readyFromStore 256 rfl).1 (fin (1 / 4))
      readyFromStore_run (by simp) (by simp)⟩

/-- C9, as stated, fails: with a model held and every field still empty, the fields parse
to NaN and the predict request runs the forward pass on the all-NaN input. -/
theorem empty_form_reaches_network :
    readyEmptyForm.trainedNet = some 256
      ∧ exampleLibrary.parseFloat readyEmptyForm.formData.area = nan
      ∧ Effect.netRun
          { area := nan, bedrooms := nan, bathrooms := nan, location := nan, age := nan }
        ∈ (handlePredict exampleLibrary readyEmptyForm).2 := by
  have hp : usablePrice
      (exampleLibrary.run 256 (predictInput exampleLibrary readyEmptyForm.formData)) = none := by
    rw [readyEmptyForm_run]
    rfl
  rw [handlePredict_of_unusable exampleLibrary readyEmptyForm 256 rfl hp, readyEmptyForm_input]
  refine ⟨rfl, rfl, ?_⟩
  simp

/-- C9, amended: with a model held, a predict request on a form with a field that does not
parse to a number does not reject the input: the field is normalized to NaN and the
forward pass is run on that input; when its output has no usable price the
prediction-failed warning is shown and the state is unchanged, and otherwise the price is
set from the output. -/
theorem handlePredict_unparsed_field {Net Json : Type} (L : Library Net Json)
    (s : AppState Net) (net : Net) (hnet : s.trainedNet = some net)
    (hfield : L.parseFloat s.formData.area = nan ∨ L.parseFloat s.formData.bedrooms = nan
      ∨ L.parseFloat s.formData.bathrooms = nan ∨ L.parseFloat s.formData.location = nan
      ∨ L.parseFloat s.formData.age = nan) :
    Effect.netRun (predictInput L s.formData) ∈ (handlePredict L s).2
      ∧ ((predictInput L s.formData).area = nan ∨ (predictInput L s.formData).bedrooms = nan
        ∨ (predictInput L s.formData).bathrooms = nan
        ∨ (predictInput L s.formData).location = nan
        ∨ (predictInput L s.formData).age = nan)
      ∧ (usablePrice (L.run net (predictInput L s.formData)) = none →
          (handlePredict L s).1 = s
            ∧ Effect.alert "Prediction failed. Please check your input values."
              ∈ (handlePredict L s).2)
      ∧ (∀ p, usablePrice (L.run net (predictInput L s.formData)) = some p →
          (handlePredict L s).1.predictedPrice = some (denormalizeOutput p)) := by
  refine ⟨?_, ?_, ?_, ?_⟩
  · cases hp : usablePrice (L.run net (predictInput L s.formData)) with
    | none => rw [handlePredict_of_unusable L s net hnet hp]; simp
    | some p => rw [handlePredict_of_usable L s net p hnet hp]; simp
  · simp only [predictInput]
    rcases hfield with h | h | h | h | h <;> rw [h, nan_div] <;> simp
  · intro hp
    rw [handlePredict_of_unusable L s net hnet hp]
    simp
  · intro p hp
    rw [handlePredict_of_usable L s net p hnet hp]

theorem handlePredict_unparsed_field_witness :
    readyEmptyForm.trainedNet = some 256
      ∧ (exampleLibrary.parseFloat readyEmptyForm.formData.area = nan
        ∨ exampleLibrary.parseFloat readyEmptyForm.formData.bedrooms = nan
        ∨ exampleLibrary.parseFloat readyEmptyForm.formData.bathrooms = nan
        ∨ exampleLibrary.parseFloat readyEmptyForm.formData.location = nan
        ∨ exampleLibrary.parseFloat readyEmptyForm.formData.age = nan)
      ∧ Effect.netRun (predictInput exampleLibrary readyEmptyForm.formData)
        ∈ (handlePredict exampleLibrary readyEmptyForm).2 :=
  ⟨rfl, Or.inl rfl,
    (handlePredict_unparsed_field exampleLibrary readyEmptyForm 256 rfl (Or.inl rfl)).1⟩

/-! ## The store -/

theorem getItem_setItem_same (st : Storage) (key value : String) :
    (st.setItem key value).getItem key = some value := by
  simp [Storage.getItem, Storage.setItem]

theorem getItem_setItem_other (st : Storage) (key value k : String) (h : k ≠ key) :
    (st.setItem key value).getItem k = st.getItem k := by
  simp [Storage.getItem, Storage.setItem, h]

theorem getItem_removeItem_same (st : Storage) (key : String) :
    (st.removeItem key).getItem key = none := by
  simp [Storage.getItem, Storage.removeItem]

theorem getItem_removeItem_other (st : Storage) (key k : String) (h : k ≠ key) :
    (st.removeItem key).getItem k = st.getItem k := by
  simp [Storage.getItem, Storage.removeItem, h]

theorem apply_other_keys {Net Json : Type} (L : Library Net Json) (s : AppState Net)
    (op : StoreOp) (k : String) (h : k ≠ modelKey) :
    (op.apply L s).localStorage.getItem k = s.localStorage.getItem k := by
  cases op with
  | save seed dataset => exact getItem_setItem_other _ _ _ _ h
  | clear => exact getItem_removeItem_other _ _ _ h

theorem applyOps_other_keys {Net Json : Type} (L : Library Net Json) (ops : List StoreOp)
    (s : AppState Net) (k : String) (h : k ≠ modelKey) :
    (applyOps L s ops).localStorage.getItem k = s.localStorage.getItem k := by
  induction ops generalizing s with
  | nil => rfl
  | cons op ops ih =>
    show (applyOps L (op.apply L s) ops).localStorage.getItem k = _
    rw [ih, apply_other_keys L s op k h]

theorem applyOps_append_one {Net Json : Type} (L : Library Net Json) (ops : List StoreOp)
    (op : StoreOp) (s : AppState Net) :
    applyOps L s (ops ++ [op]) = op.apply L (applyOps L s ops) := by
  simp [applyOps, List.foldl_append]

theorem startup_of_absent {Net Json : Type} (L : Library Net Json) (s : AppState Net)
    (h : s.localStorage.getItem modelKey = none) :
    startup L s = (s, [Effect.fetch "/real_estate_data.json"]) := by
  simp only [startup, h]

/-- C2: over every sequence of saves and clears from any store, only the fixed key is ever
written, so every other key keeps what it held; after a save the fixed key holds the one
model just saved, and after a clear it holds nothing, the in-memory model is null, and the
startup load of the next page finds no model and turns to the fetch. -/
theorem single_slot {Net Json : Type} (L : Library Net Json) (s : AppState Net)
    (ops : List StoreOp) :
    (∀ k, k ≠ modelKey →
        (applyOps L s ops).localStorage.getItem k = s.localStorage.getItem k)
      ∧ (∀ seed dataset,
          (applyOps L s (ops ++ [StoreOp.save seed dataset])).localStorage.getItem modelKey
            = some (L.stringify (L.toJSON (fitNetwork L seed (dataset.map formatRecord)))))
      ∧ (applyOps L s (ops ++ [StoreOp.clear])).localStorage.getItem modelKey = none
      ∧ (applyOps L s (ops ++ [StoreOp.clear])).trainedNet = none
      ∧ startup L (initialState (applyOps L s (ops ++ [StoreOp.clear])).localStorage)
        = (initialState (applyOps L s (ops ++ [StoreOp.clear])).localStorage,
           [Effect.fetch "/real_estate_data.json"])
      ∧ (startup L (applyOps L s (ops ++ [StoreOp.clear]))).1.trainedNet = none := by
  have hclear : (applyOps L s (ops ++ [StoreOp.clear])).localStorage.getItem modelKey = none := by
    rw [applyOps_append_one]
    exact getItem_removeItem_same _ _
  have hnet : (applyOps L s (ops ++ [StoreOp.clear])).trainedNet = none := by
    rw [applyOps_append_one]
    rfl
  refine ⟨fun k hk => applyOps_other_keys L ops s k hk, ?_, hclear, hnet, ?_, ?_⟩
  · intro seed dataset
    rw [applyOps_append_one]
    exact getItem_setItem_same _ _ _
  · exact startup_of_absent L _ hclear
  · rw [startup_of_absent L _ hclear]
    exact hnet

/-- C5: when the five form fields parse to the numbers of a dataset record, the input
`handlePredict` gives to the network is the input `trainModel` builds for the record, and
both are the specification's `normalizeInput` of those numbers: area/10000, bedrooms/10,
bathrooms/10, location/5, age/100, nothing clamped. -/
theorem normalization_agrees {Net Json : Type} (L : Library Net Json) (item : PropertyRecord)
    (f : FormData) (harea : L.parseFloat f.area = item.area)
    (hbedrooms : L.parseFloat f.bedrooms = item.bedrooms)
    (hbathrooms : L.parseFloat f.bathrooms = item.bathrooms)
    (hlocation : L.parseFloat f.location = item.location)
    (hage : L.parseFloat f.age = item.age) :
    predictInput L f = (formatRecord item).input
      ∧ predictInput L f
        = Spec.normalizeInput item.area item.bedrooms item.bathrooms item.location item.age
      ∧ predictInput L f =
        { area := item.area.div (fin 10000)
          bedrooms := item.bedrooms.div (fin 10)
          bathrooms := item.bathrooms.div (fin 10)
          location := item.location.div (fin 5)
          age := item.age.div (fin 100) } := by
  simp only [predictInput, formatRecord, Spec.normalizeInput, harea, hbedrooms, hbathrooms,
    hlocation, hage, and_self]

theorem normalization_agrees_witness :
    exampleLibrary.parseFloat "2000" = round64 2000
      ∧ exampleLibrary.parseFloat "3" = round64 3
      ∧ exampleLibrary.parseFloat "2" = round64 2
      ∧ exampleLibrary.parseFloat "10" = round64 10
      ∧ predictInput exampleLibrary
          { area := "2000", bedrooms := "3", bathrooms := "2", location := "3", age := "10" }
        = (formatRecord
            { area := round64 2000, bedrooms := round64 3, bathrooms := round64 2,
              location := round64 3, age := round64 10, price := round64 300 }).input :=
  ⟨rfl, rfl, rfl, rfl,
    (normalization_agrees exampleLibrary
      { area := round64 2000, bedrooms := round64 3, bathrooms := round64 2,
        location := round64 3, age := round64 10, price := round64 300 }
      { area := "2000", bedrooms := "3", bathrooms := "2", location := "3", age := "10" }
      rfl rfl rfl rfl rfl).1⟩
